import Mathlib

/-!
Shallow embedding of `src/service/api/notifyRouter.ts` (cowprotocol/uptime-periphery).

The handler authenticates a request by a `key` query parameter, tolerantly
parses the JSON body, extracts a message string, extracts a parenthesized
HTTP(S) URL, looks the URL up in a static routing table, and fans out
Telegram POSTs; on any thrown error it best-effort posts to a Slack webhook
and returns a 500 response.

JavaScript values from the parsed JSON body are modelled by `Json`; JS
strings are modelled by Lean `String` (sequences of characters standing for
UTF-16 code units); `process.env` is modelled by an association list.
Outbound HTTP is modelled by recording the POSTs the handler issues and by
oracles giving each POST's outcome.
-/

/-- JSON values, as produced by `request.json()`. -/
inductive Json where
  | null
  | bool (b : Bool)
  | num (n : Int)
  | str (s : String)
  | arr (elems : List Json)
  | obj (fields : List (String × Json))
deriving Repr

/-- JavaScript truthiness of a `Json` value (`if (v)`): `null`, `false`,
`0` and `""` are falsy; objects and arrays are always truthy. -/
def truthy : Json → Bool
  | .null => false
  | .bool b => b
  | .num n => n != 0
  | .str s => s != ""
  | .arr _ => true
  | .obj _ => true

/-- JavaScript property access `v.k`: defined (`some`) only when `v` is an
object with field `k`; on primitives, `null` and arrays it is `undefined`. -/
def jsField : Json → String → Option Json
  | .obj fs, k => (fs.find? (fun f => f.1 == k)).map (fun f => f.2)
  | _, _ => none

/-- Optional chaining `v?.k` on a possibly-undefined value: `undefined?.k`
and `null?.k` are `undefined`, otherwise plain property access. -/
def jsOptField (v : Option Json) (k : String) : Option Json :=
  match v with
  | none => none
  | some j => jsField j k

/-- Escape one character for `JSON.stringify` string output. -/
def jsonEscapeChar (c : Char) : String :=
  if c = '"' then "\\\""
  else if c = '\\' then "\\\\"
  else if c = '\n' then "\\n"
  else if c = '\t' then "\\t"
  else if c = '\r' then "\\r"
  else String.singleton c

/-- `JSON.stringify` of a string value. -/
def jsonStringifyStr (s : String) : String :=
  "\"" ++ String.join (s.toList.map jsonEscapeChar) ++ "\""

mutual
/-- `JSON.stringify(payload)` (the serialization used by `extractMessage`'s
fallback branch). -/
def jsonStringify : Json → String
  | .null => "null"
  | .bool true => "true"
  | .bool false => "false"
  | .num n => toString n
  | .str s => jsonStringifyStr s
  | .arr xs => "[" ++ jsonStringifyArr xs ++ "]"
  | .obj fs => "\x7b" ++ jsonStringifyObj fs ++ "\x7d"

/-- Comma-separated serialization of array elements. -/
def jsonStringifyArr : List Json → String
  | [] => ""
  | [x] => jsonStringify x
  | x :: y :: xs => jsonStringify x ++ "," ++ jsonStringifyArr (y :: xs)

/-- Comma-separated serialization of object fields. -/
def jsonStringifyObj : List (String × Json) → String
  | [] => ""
  | [f] => jsonStringifyStr f.1 ++ ":" ++ jsonStringify f.2
  | f :: g :: fs => jsonStringifyStr f.1 ++ ":" ++ jsonStringify f.2 ++ "," ++ jsonStringifyObj (g :: fs)
end

/-- `extractMessage(payload)` from `notifyRouter.ts`: a string payload is
returned as-is; otherwise, for an object (or array — `typeof` is
`"object"`), a truthy `data?.message` wins, else a truthy `message`, else
`JSON.stringify(payload)`.  The function is untyped in the source: a truthy
non-string `data.message`/`message` is returned unchanged, hence the `Json`
codomain. -/
def extractMessage (payload : Json) : Json :=
  match payload with
  | .str s => .str s
  | .obj _ | .arr _ =>
    match jsOptField (jsField payload "data") "message" with
    | some v =>
      if truthy v then v
      else
        match jsField payload "message" with
        | some w => if truthy w then w else .str (jsonStringify payload)
        | none => .str (jsonStringify payload)
    | none =>
      match jsField payload "message" with
      | some w => if truthy w then w else .str (jsonStringify payload)
      | none => .str (jsonStringify payload)
  | _ => .str (jsonStringify payload)

/-- Is `c` one of the quote characters of the regex `/^["']|["']$/`? -/
def isQuoteChar (c : Char) : Bool := c = '"' || c = '\''

/-- Drop the head character when it is a quote character. -/
def stripLeadingQuote (cs : List Char) : List Char :=
  match cs with
  | c :: rest => if isQuoteChar c then rest else cs
  | [] => []

/-- `s.replace(/^["']|["']$/g, "")` from line 46 of `notifyRouter.ts`: the
regex removes at most one leading and at most one trailing quote
character. -/
def stripOuterQuotes (s : String) : String :=
  let l1 := stripLeadingQuote s.toList
  String.mk (stripLeadingQuote l1.reverse).reverse

/-- The handler's message pipeline at line 46:
`extractMessage(payload).replace(/^["']|["']$/g, "")`.  When
`extractMessage` returns a non-string, `.replace` is not a function and a
`TypeError` is thrown; the thrown error is modelled by its message. -/
def extractedMessage (payload : Json) : Except String String :=
  match extractMessage payload with
  | .str s => .ok (stripOuterQuotes s)
  | _ => .error "extractMessage(...).replace is not a function"

/-- Modelled from the spec's words (§4.1 step 3), for comparison with the
source's `extractMessage`: "if the payload is already a string, use it;
else if it has a nested `data.message` string field, use that; else if it
has a top-level `message` string field, use that; else serialize the whole
payload to a string." -/
def specExtractMessage (payload : Json) : String :=
  match payload with
  | .str s => s
  | _ =>
    match jsOptField (jsField payload "data") "message" with
    | some (.str s) => s
    | _ =>
      match jsField payload "message" with
      | some (.str s) => s
      | _ => jsonStringify payload

/-- The characters of the literal protocol prefix `https://`. -/
def httpsChars : List Char := ['h', 't', 't', 'p', 's', ':', '/', '/']

/-- The characters of the literal protocol prefix `http://`. -/
def httpChars : List Char := ['h', 't', 't', 'p', ':', '/', '/']

/-- Match the `https?:\/\/` part of the regex at the head of `cs`,
returning the consumed protocol characters and the remainder.  Regex
backtracking over the optional `s` is equivalent to trying the `https://`
prefix first and the `http://` prefix second. -/
def protoSplit (cs : List Char) : Option (List Char × List Char) :=
  if cs.take 8 = httpsChars then some (httpsChars, cs.drop 8)
  else if cs.take 7 = httpChars then some (httpChars, cs.drop 7)
  else none

/-- Try to match the whole regex `\((?<url>https?:\/\/[^)]+)\)` of
`extractUrl` at the head of `cs`, returning the `url` group: an opening
parenthesis, a protocol, a nonempty greedy run of non-`)` characters, and
a closing parenthesis. -/
def matchAt (cs : List Char) : Option (List Char) :=
  match cs with
  | c :: rest =>
    if c = '(' then
      match protoSplit rest with
      | some (proto, rest2) =>
        if rest2.takeWhile (fun c => c != ')') = [] then none
        else if rest2.dropWhile (fun c => c != ')') = [] then none
        else some (proto ++ rest2.takeWhile (fun c => c != ')'))
      | none => none
    else none
  | [] => none

/-- Scan left to right for the first position where the regex matches, as
`RegExp.exec` does. -/
def extractUrlAux : List Char → Option (List Char)
  | [] => none
  | c :: cs =>
    match matchAt (c :: cs) with
    | some u => some u
    | none => extractUrlAux cs

/-- `extractUrl(message)` from `notifyRouter.ts`:
`/\((?<url>https?:\/\/[^)]+)\)/.exec(message)?.groups?.url || null`.
The `|| null` turns a falsy (empty) group into `null`; the group is in
fact never empty. -/
def extractUrl (message : String) : Option String :=
  match extractUrlAux message.toList with
  | some u => if u = [] then none else some (String.mk u)
  | none => none

/-- Boolean list-prefix test (structural helper for `strIncludes`). -/
def isPrefixB : List Char → List Char → Bool
  | [], _ => true
  | _ :: _, [] => false
  | a :: as, b :: bs => a == b && isPrefixB as bs

/-- Boolean substring test: does `pat` occur contiguously in `hay`?  This
is JavaScript's `hay.includes(pat)` on the character level. -/
def isSubstrB (pat : List Char) : List Char → Bool
  | [] => isPrefixB pat []
  | c :: t => isPrefixB pat (c :: t) || isSubstrB pat t

/-- `s.includes(pat)` for strings. -/
def strIncludes (s pat : String) : Bool := isSubstrB pat.toList s.toList

/-- `process.env`, modelled as an association list from variable names to
string values (a variable that is unset is simply absent). -/
def EnvMap : Type := List (String × String)

/-- `process.env[k]`: `some` the value when set, `none` (undefined) when
not. -/
def envGet (env : EnvMap) (k : String) : Option String :=
  (List.find? (fun e => e.1 == k) env).map (fun e => e.2)

/-- `!process.env[key]`: a variable is "missing" when unset or empty (the
empty string is falsy). -/
def envFalsy (env : EnvMap) (k : String) : Bool :=
  match envGet env k with
  | none => true
  | some v => v == ""

/-- `REQUIRED_ENV_KEYS` from `notifyRouter.ts`, in source order. -/
def REQUIRED_ENV_KEYS : List String :=
  ["ROUTER_SECRET", "TELEGRAM_BOT_TOKEN", "TELEGRAM_CHAT_NEAR",
   "TELEGRAM_CHAT_BUNGEE", "TELEGRAM_CHAT_ACROSS", "TELEGRAM_CHAT_LIFI"]

/-- The `RequiredEnv` record: the six validated environment values. -/
structure RequiredEnv where
  ROUTER_SECRET : String
  TELEGRAM_BOT_TOKEN : String
  TELEGRAM_CHAT_NEAR : String
  TELEGRAM_CHAT_BUNGEE : String
  TELEGRAM_CHAT_ACROSS : String
  TELEGRAM_CHAT_LIFI : String
deriving Repr, DecidableEq

/-- `getRequiredEnv()` from `notifyRouter.ts`: filter the required keys for
falsy values; throw (model: `.error` with the thrown `Error`'s message)
when any is missing, else build the record from the environment. -/
def getRequiredEnv (env : EnvMap) : Except String RequiredEnv :=
  let missing := REQUIRED_ENV_KEYS.filter (envFalsy env)
  if missing = [] then
    .ok
      { ROUTER_SECRET := (envGet env "ROUTER_SECRET").getD ""
        TELEGRAM_BOT_TOKEN := (envGet env "TELEGRAM_BOT_TOKEN").getD ""
        TELEGRAM_CHAT_NEAR := (envGet env "TELEGRAM_CHAT_NEAR").getD ""
        TELEGRAM_CHAT_BUNGEE := (envGet env "TELEGRAM_CHAT_BUNGEE").getD ""
        TELEGRAM_CHAT_ACROSS := (envGet env "TELEGRAM_CHAT_ACROSS").getD ""
        TELEGRAM_CHAT_LIFI := (envGet env "TELEGRAM_CHAT_LIFI").getD "" }
  else .error ("Missing environment variables: " ++ String.intercalate ", " missing)

/-- A routing-table value: a single `keyof RequiredEnv` or an array of
them (`keyof RequiredEnv | Array<keyof RequiredEnv>`). -/
inductive EnvKeyRef where
  | single (k : String)
  | multi (ks : List String)
deriving Repr, DecidableEq

/-- `URL_PATTERN_TO_ENV_KEY` from `notifyRouter.ts`, in insertion order
(which `Object.entries` preserves for string keys). -/
def URL_PATTERN_TO_ENV_KEY : List (String × EnvKeyRef) :=
  [("1click.chaindefuser.com", .single "TELEGRAM_CHAT_NEAR"),
   ("backend.bungee.exchange", .single "TELEGRAM_CHAT_BUNGEE")]

/-- `env[key]` for a `keyof RequiredEnv` (the table only ever holds the
chat keys, but the lookup is total over the six record fields). -/
def envLookup (renv : RequiredEnv) (k : String) : String :=
  if k = "ROUTER_SECRET" then renv.ROUTER_SECRET
  else if k = "TELEGRAM_BOT_TOKEN" then renv.TELEGRAM_BOT_TOKEN
  else if k = "TELEGRAM_CHAT_NEAR" then renv.TELEGRAM_CHAT_NEAR
  else if k = "TELEGRAM_CHAT_BUNGEE" then renv.TELEGRAM_CHAT_BUNGEE
  else if k = "TELEGRAM_CHAT_ACROSS" then renv.TELEGRAM_CHAT_ACROSS
  else if k = "TELEGRAM_CHAT_LIFI" then renv.TELEGRAM_CHAT_LIFI
  else ""

/-- The `string | string[]` result of `getTelegramChatId`. -/
inductive ChatIds where
  | single (s : String)
  | multi (l : List String)
deriving Repr, DecidableEq

/-- `getTelegramChatId(url, env)` from `notifyRouter.ts`: `undefined` when
the url is falsy (`null` or empty); otherwise the first entry of
`URL_PATTERN_TO_ENV_KEY` whose pattern the url contains as a substring,
resolved through `env`; `undefined` when no entry matches. -/
def getTelegramChatId (url : Option String) (renv : RequiredEnv) : Option ChatIds :=
  match url with
  | none => none
  | some u =>
    if u = "" then none
    else
      match List.find? (fun e => strIncludes u e.1) URL_PATTERN_TO_ENV_KEY with
      | none => none
      | some (_, .single k) => some (.single (envLookup renv k))
      | some (_, .multi ks) => some (.multi (ks.map (envLookup renv)))

/-- `if (!chatIds)` at line 60: `undefined` and the empty string are
falsy; an array is always truthy. -/
def chatIdsFalsy : Option ChatIds → Bool
  | none => true
  | some (.single s) => s == ""
  | some (.multi _) => false

/-- One outbound POST to the Telegram bot API, as built by
`sendTelegramMessage`. -/
structure TelegramPost where
  url : String
  chat_id : String
  text : String
  disable_web_page_preview : Bool
deriving Repr, DecidableEq

/-- `sendTelegramMessage(token, chatId, text)`: the POST it issues, and
its outcome under the oracle `o` (`o chatId = none` means the response is
ok; `some t` means `!res.ok` with response text `t`, in which case the
function throws `new Error(t)`). -/
def sendTelegramMessage (token chatId text : String) (o : String → Option String) :
    TelegramPost × Except String Unit :=
  (⟨"https://api.telegram.org/bot" ++ token ++ "/sendMessage", chatId, text, true⟩,
   match o chatId with
   | none => .ok ()
   | some t => .error t)

/-- One outbound POST to the Slack error webhook. -/
structure SlackPost where
  url : String
  errMsg : String
deriving Repr, DecidableEq

/-- Outcome of the Slack webhook POST: response ok, response not ok with
body `t`, or `fetch` itself throwing with message `m`. -/
inductive PostOutcome where
  | ok
  | httpError (t : String)
  | exn (m : String)
deriving Repr, DecidableEq

/-- `sendSlackErrorNotification(webhookUrl, error)`: POSTs the structured
message and swallows every failure inside its own `try`/`catch`; the
result is the attempted POST plus the `console.error` log lines.  The
`Except` codomain records that the source could in principle throw — the
theorems show it never does. -/
def sendSlackErrorNotification (webhookUrl errMsg : String) (out : PostOutcome) :
    Except String (SlackPost × List String) :=
  let post : SlackPost := ⟨webhookUrl, errMsg⟩
  match out with
  | .ok => .ok (post, [])
  | .httpError t => .ok (post, ["Failed to send Slack notification: " ++ t])
  | .exn m => .ok (post, ["Error sending Slack notification: " ++ m])

/-- An HTTP response (`new Response(body, { status })`; `new Response("ok")`
has status 200). -/
structure Response where
  status : Nat
  body : Option String
deriving Repr, DecidableEq

/-- Lines 49-87 of the handler: URL extraction, route lookup, the 204
no-route short-circuit, truncation to 4000 characters, fan-out of one
`sendTelegramMessage` per non-falsy target, and `Promise.all` over the
results (rejecting with a failed send's error, modelled as the first
failure in target order).  Returns the handler-body result together with
the Telegram POSTs that were issued. -/
def routeAndSend (renv : RequiredEnv) (message : String) (o : String → Option String) :
    Except String Response × List TelegramPost :=
  let siteUrl := extractUrl message
  let chatIds := getTelegramChatId siteUrl renv
  if chatIdsFalsy chatIds then (.ok ⟨204, none⟩, [])
  else
    let telegramMessage := String.mk (message.toList.take 4000)
    let targets : List String :=
      match chatIds with
      | some (.single s) => [s]
      | some (.multi l) => l
      | none => []
    let results := (targets.filter (fun c => c != "")).map
      (fun chatId => sendTelegramMessage renv.TELEGRAM_BOT_TOKEN chatId telegramMessage o)
    let posts := results.map (fun r => r.1)
    match results.findSome? (fun r => match r.2 with | .error t => some t | .ok _ => none) with
    | some t => (.error t, posts)
    | none => (.ok ⟨200, some "ok"⟩, posts)

/-- The body of the `try` block of `fetch(request)` (lines 34-87):
environment validation, the secret-key check against the `key` query
parameter, tolerant body parsing (`none` models a body whose JSON parse
failed, replaced by `{}`), message extraction and quote stripping, then
`routeAndSend`.  An `.error` result models a thrown exception, by its
message. -/
def handlerTry (env : EnvMap) (key : Option String) (body : Option Json)
    (o : String → Option String) : Except String Response × List TelegramPost :=
  match getRequiredEnv env with
  | .error msg => (.error msg, [])
  | .ok renv =>
    if key ≠ some renv.ROUTER_SECRET then (.ok ⟨401, some "Not Authorized"⟩, [])
    else
      let payload := body.getD (Json.obj [])
      match extractedMessage payload with
      | .error msg => (.error msg, [])
      | .ok message => routeAndSend renv message o

/-- `e?.message || e?.toString() || "Unknown error"` for a thrown `Error`
modelled by its message: an empty message is falsy and `Error("").toString()`
is `"Error"`. -/
def errorText (msg : String) : String :=
  if msg = "" then "Error" else msg

/-- The whole `fetch(request)` handler: the `try` body, and on a thrown
error the `catch` block (lines 88-112): best-effort Slack notification
when `SLACK_ERROR_WEBHOOK_URL` is set and truthy, then the 500 response.
Returns the response, the Telegram POSTs issued, and the Slack POSTs
issued. -/
def fetchHandler (env : EnvMap) (key : Option String) (body : Option Json)
    (o : String → Option String) (slackOut : PostOutcome) :
    Response × List TelegramPost × List SlackPost :=
  match handlerTry env key body o with
  | (.ok resp, posts) => (resp, posts, [])
  | (.error msg, posts) =>
    let slackPosts :=
      match envGet env "SLACK_ERROR_WEBHOOK_URL" with
      | none => []
      | some u =>
        if u = "" then []
        else
          match sendSlackErrorNotification u (errorText msg) slackOut with
          | .ok (p, _) => [p]
          | .error _ => []
    (⟨500, some ("Error handling request: " ++ errorText msg)⟩, posts, slackPosts)

/-- Does `typeof payload === "object" && payload` hold (object or array,
not `null`)? -/
def isObjLike : Json → Bool
  | .obj _ => true
  | .arr _ => true
  | _ => false

/-- Resolution of a routing-table value through the validated environment
(the body of the last two branches of `getTelegramChatId`). -/
def resolveRef (renv : RequiredEnv) : EnvKeyRef → ChatIds
  | .single k => .single (envLookup renv k)
  | .multi ks => .multi (ks.map (envLookup renv))

/-- The regex of `extractUrl` matches at the head of `cs` with `url` group
`u`: an opening parenthesis, one of the two protocol prefixes, a nonempty
run of non-`)` characters, and a closing parenthesis. -/
def UrlAt (cs u : List Char) : Prop :=
  ∃ proto body rest,
    (proto = httpsChars ∨ proto = httpChars) ∧ body ≠ [] ∧
    (∀ c ∈ body, c ≠ ')') ∧
    cs = '(' :: (proto ++ (body ++ ')' :: rest)) ∧ u = proto ++ body

/-- A payload whose `data.message` is truthy but not a string. -/
def c10payload : Json := Json.obj [("data", Json.obj [("message", Json.num 123)])]

/-- A payload whose nested `data.message` is the empty string (a string
field, but falsy) next to a truthy top-level `message`. -/
def c3payload : Json :=
  Json.obj [("data", Json.obj [("message", Json.str "")]), ("message", Json.str "hi")]

/-- A fully populated environment used by the concrete witnesses. -/
def envW : EnvMap :=
  [("ROUTER_SECRET", "sek"), ("TELEGRAM_BOT_TOKEN", "tok"),
   ("TELEGRAM_CHAT_NEAR", "near1"), ("TELEGRAM_CHAT_BUNGEE", "bun1"),
   ("TELEGRAM_CHAT_ACROSS", "acr1"), ("TELEGRAM_CHAT_LIFI", "lifi1")]

/-- The validated record corresponding to `envW`. -/
def renvW : RequiredEnv := ⟨"sek", "tok", "near1", "bun1", "acr1", "lifi1"⟩

/-- A routable alert payload used by the concrete witnesses. -/
def bodyW : Json :=
  Json.obj [("data", Json.obj
    [("message", Json.str "X Site (https://1click.chaindefuser.com/x) is down")])]

theorem append_ne_empty_of_left (a x : String) (h : a ≠ "") : a ++ x ≠ "" := by
  obtain ⟨la⟩ := a
  obtain ⟨lx⟩ := x
  intro hc
  have hdata : la ++ lx = [] := congrArg String.data hc
  rcases List.append_eq_nil.mp hdata with ⟨h1, _⟩
  exact h (by rw [h1])

theorem str_append_assoc (a b c : String) : a ++ b ++ c = a ++ (b ++ c) := by
  obtain ⟨la⟩ := a
  obtain ⟨lb⟩ := b
  obtain ⟨lc⟩ := c
  show String.mk (la ++ lb ++ lc) = String.mk (la ++ (lb ++ lc))
  rw [List.append_assoc]

theorem fetchHandler_posts (env : EnvMap) (key : Option String) (body : Option Json)
    (o : String → Option String) (so : PostOutcome) :
    (fetchHandler env key body o so).2.1 = (handlerTry env key body o).2 := by
  unfold fetchHandler
  rcases h : handlerTry env key body o with ⟨res, posts⟩
  cases res <;> simp

theorem routeAndSend_text (renv : RequiredEnv) (m : String) (o : String → Option String) :
    ∀ p ∈ (routeAndSend renv m o).2, p.text = String.mk (m.toList.take 4000) := by
  intro p hp
  unfold routeAndSend at hp
  by_cases h : chatIdsFalsy (getTelegramChatId (extractUrl m) renv) = true
  · simp [h] at hp
  · simp only [h, if_neg, Bool.not_eq_true, if_false] at hp
    rcases hf : List.findSome?
        (fun r => match r.2 with | .error t => some t | .ok _ => none)
        ((List.filter (fun c => c != "")
            (match getTelegramChatId (extractUrl m) renv with
              | some (.single s) => [s]
              | some (.multi l) => l
              | none => [])).map
          (fun chatId => sendTelegramMessage renv.TELEGRAM_BOT_TOKEN chatId
            (String.mk (m.toList.take 4000)) o)) with _ | t <;>
      rw [hf] at hp <;>
      simp only [List.mem_map, List.map_map] at hp <;>
      obtain ⟨c, _, hc⟩ := hp <;>
      rw [← hc] <;> rfl

theorem handlerTry_text (env : EnvMap) (key : Option String) (body : Option Json)
    (o : String → Option String) :
    ∀ p ∈ (handlerTry env key body o).2,
      ∃ m, extractedMessage (body.getD (Json.obj [])) = .ok m ∧
        p.text = String.mk (m.toList.take 4000) := by
  intro p hp
  unfold handlerTry at hp
  rcases hge : getRequiredEnv env with msg | renv <;> rw [hge] at hp
  · simp at hp
  · by_cases hk : key ≠ some renv.ROUTER_SECRET
    · simp [hk] at hp
    · rcases hm : extractedMessage (body.getD (Json.obj [])) with msg | m <;>
        simp only [hk, if_neg, if_false, hm, not_true_eq_false] at hp
      · simp at hp
      · exact ⟨m, rfl, routeAndSend_text renv m o p hp⟩

/-- C1: for every request whose `key` query parameter differs from the
configured `ROUTER_SECRET` (the environment being otherwise valid), the
handler returns status 401 ("Not Authorized") and issues no Telegram
POST. -/
theorem key_mismatch_unauthorized (env : EnvMap) (key : Option String) (body : Option Json)
    (o : String → Option String) (so : PostOutcome) (renv : RequiredEnv)
    (henv : getRequiredEnv env = .ok renv) (hkey : key ≠ some renv.ROUTER_SECRET) :
    (fetchHandler env key body o so).1 = ⟨401, some "Not Authorized"⟩ ∧
    (fetchHandler env key body o so).2.1 = [] := by
  have h : handlerTry env key body o = (.ok ⟨401, some "Not Authorized"⟩, []) := by
    unfold handlerTry; rw [henv]; simp [hkey]
  unfold fetchHandler; rw [h]
  exact ⟨rfl, rfl⟩

/-- Witness for C1 at a concrete mismatching key. -/
theorem key_mismatch_unauthorized_witness :
    (fetchHandler envW (some "wrong") none (fun _ => none) .ok).1 =
      ⟨401, some "Not Authorized"⟩ ∧
    (fetchHandler envW (some "wrong") none (fun _ => none) .ok).2.1 = [] :=
  key_mismatch_unauthorized envW (some "wrong") none (fun _ => none) .ok renvW rfl
    (by decide)

/-- C4: every Telegram POST the handler issues carries a text of at most
4000 characters (the message is truncated by `message.slice(0, 4000)`
before sending). -/
theorem sent_text_length_le (env : EnvMap) (key : Option String) (body : Option Json)
    (o : String → Option String) (so : PostOutcome) :
    ∀ p ∈ (fetchHandler env key body o so).2.1, p.text.length ≤ 4000 := by
  intro p hp
  rw [fetchHandler_posts] at hp
  obtain ⟨m, _, ht⟩ := handlerTry_text env key body o p hp
  rw [ht]
  show (m.toList.take 4000).length ≤ 4000
  simp

/-- Witness for C4 at a concrete dispatched POST. -/
theorem sent_text_length_le_witness :
    (⟨"https://api.telegram.org/bottok/sendMessage", "near1",
      "X Site (https://1click.chaindefuser.com/x) is down", true⟩ : TelegramPost).text.length
      ≤ 4000 :=
  sent_text_length_le envW (some "sek") (some bodyW) (fun _ => none) .ok _ (by decide)


theorem extractMessage_data_truthy (p v : Json)
    (h1 : jsOptField (jsField p "data") "message" = some v) (h2 : truthy v = true) :
    extractMessage p = v := by
  cases p with
  | obj fs => unfold extractMessage; rw [h1]; simp [h2]
  | arr es => unfold extractMessage; rw [h1]; simp [h2]
  | str s => simp [jsField, jsOptField] at h1
  | null => simp [jsField, jsOptField] at h1
  | bool b => simp [jsField, jsOptField] at h1
  | num n => simp [jsField, jsOptField] at h1

theorem extractMessage_msg_truthy (p w : Json) (hobj : isObjLike p = true)
    (hdm : ∀ v, jsOptField (jsField p "data") "message" = some v → truthy v = false)
    (hm : jsField p "message" = some w) (ht : truthy w = true) :
    extractMessage p = w := by
  cases p with
  | obj fs =>
    unfold extractMessage
    rcases hd : jsOptField (jsField (Json.obj fs) "data") "message" with _ | v
    · rw [hm]; simp [ht]
    · rw [hm]; simp [hdm v hd, ht]
  | arr es =>
    unfold extractMessage
    rcases hd : jsOptField (jsField (Json.arr es) "data") "message" with _ | v
    · rw [hm]; simp [ht]
    · rw [hm]; simp [hdm v hd, ht]
  | str s => simp [isObjLike] at hobj
  | null => simp [isObjLike] at hobj
  | bool b => simp [isObjLike] at hobj
  | num n => simp [isObjLike] at hobj

theorem extractMessage_fallback (p : Json) (hobj : isObjLike p = true)
    (hdm : ∀ v, jsOptField (jsField p "data") "message" = some v → truthy v = false)
    (hm : ∀ w, jsField p "message" = some w → truthy w = false) :
    extractMessage p = .str (jsonStringify p) := by
  cases p with
  | obj fs =>
    unfold extractMessage
    rcases hd : jsOptField (jsField (Json.obj fs) "data") "message" with _ | v <;>
      rcases hw : jsField (Json.obj fs) "message" with _ | w <;>
      simp_all
  | arr es =>
    unfold extractMessage
    rcases hd : jsOptField (jsField (Json.arr es) "data") "message" with _ | v <;>
      rcases hw : jsField (Json.arr es) "message" with _ | w <;>
      simp_all
  | str s => simp [isObjLike] at hobj
  | null => simp [isObjLike] at hobj
  | bool b => simp [isObjLike] at hobj
  | num n => simp [isObjLike] at hobj

theorem extractMessage_prim (p : Json) (hobj : isObjLike p = false)
    (hstr : ∀ s, p ≠ .str s) :
    extractMessage p = .str (jsonStringify p) := by
  cases p with
  | obj fs => simp [isObjLike] at hobj
  | arr es => simp [isObjLike] at hobj
  | str s => exact absurd rfl (hstr s)
  | null => rfl
  | bool b => rfl
  | num n => rfl

theorem extractedMessage_of_str (p : Json) (s : String) (h : extractMessage p = .str s) :
    extractedMessage p = .ok (stripOuterQuotes s) := by
  unfold extractedMessage; rw [h]

/-- C6: for each of the payload shapes `{message: "..."}`,
`{data:{message:"..."}}`, a bare string, and an unparseable body (which
the handler replaces by the empty object), message extraction terminates
without throwing and yields a string result. -/
theorem extraction_total_on_spec_shapes :
    (∀ s, (extractedMessage (Json.str s)).isOk = true) ∧
    (∀ m, (extractedMessage (Json.obj [("message", Json.str m)])).isOk = true) ∧
    (∀ m, (extractedMessage (Json.obj [("data", Json.obj [("message", Json.str m)])])).isOk = true) ∧
    (extractedMessage (Json.obj [])).isOk = true := by
  refine ⟨fun s => rfl, fun m => ?_, fun m => ?_, rfl⟩
  · by_cases hm : m = ""
    · subst hm; rfl
    · have hb : truthy (Json.str m) = true := by simpa [truthy] using hm
      have hnone : jsOptField
          (jsField (Json.obj [("message", Json.str m)]) "data") "message" = none := rfl
      have hdm : ∀ v, jsOptField
          (jsField (Json.obj [("message", Json.str m)]) "data") "message" = some v →
          truthy v = false := by
        intro v hv
        rw [hnone] at hv
        cases hv
      have h := extractMessage_msg_truthy (Json.obj [("message", Json.str m)]) (Json.str m)
        rfl hdm rfl hb
      rw [extractedMessage_of_str _ _ h]
      rfl
  · by_cases hm : m = ""
    · subst hm; rfl
    · have hb : truthy (Json.str m) = true := by simpa [truthy] using hm
      have h := extractMessage_data_truthy (Json.obj [("data", Json.obj [("message", Json.str m)])])
        (Json.str m) rfl hb
      rw [extractedMessage_of_str _ _ h]
      rfl

/-- C7: the Slack error notifier never raises to its caller (for every
error and every outcome of the webhook POST), and whenever the handler
body throws, the handler returns the 500 response regardless of the Slack
configuration and of the Slack POST's outcome. -/
theorem notifier_never_raises :
    (∀ u e so, (sendSlackErrorNotification u e so).isOk = true) ∧
    (∀ (env : EnvMap) key body o so msg posts,
      handlerTry env key body o = (.error msg, posts) →
      (fetchHandler env key body o so).1 =
        ⟨500, some ("Error handling request: " ++ errorText msg)⟩) := by
  constructor
  · intro u e so
    cases so <;> rfl
  · intro env key body o so msg posts h
    unfold fetchHandler
    rw [h]

/-- Witness for C7: an empty environment makes the handler body throw;
the response is the 500 with the thrown message, for an unconfigured
webhook as well as for a configured one whose POST throws. -/
theorem notifier_never_raises_witness :
    (sendSlackErrorNotification "hook" "boom" (.exn "down")).isOk = true ∧
    (fetchHandler [] none none (fun _ => none) (.exn "down")).1 =
      ⟨500, some ("Error handling request: " ++ errorText
        ("Missing environment variables: " ++ String.intercalate ", " REQUIRED_ENV_KEYS))⟩ :=
  ⟨notifier_never_raises.1 "hook" "boom" (.exn "down"),
   notifier_never_raises.2 [] none none (fun _ => none) (.exn "down") _ [] rfl⟩

/-- C8: when any required environment variable is missing or empty, the
handler returns status 500 with a body listing the missing names and
issues no Telegram POST — for every request key, so such a request is
never answered with 401. -/
theorem missing_env_500 (env : EnvMap) (key : Option String) (body : Option Json)
    (o : String → Option String) (so : PostOutcome)
    (hmiss : REQUIRED_ENV_KEYS.filter (envFalsy env) ≠ []) :
    (fetchHandler env key body o so).1 =
      ⟨500, some ("Error handling request: Missing environment variables: " ++
        String.intercalate ", " (REQUIRED_ENV_KEYS.filter (envFalsy env)))⟩ ∧
    (fetchHandler env key body o so).2.1 = [] := by
  have hge : getRequiredEnv env = .error ("Missing environment variables: " ++
      String.intercalate ", " (REQUIRED_ENV_KEYS.filter (envFalsy env))) := by
    unfold getRequiredEnv
    simp [hmiss]
  have htry : handlerTry env key body o = (.error ("Missing environment variables: " ++
      String.intercalate ", " (REQUIRED_ENV_KEYS.filter (envFalsy env))), []) := by
    unfold handlerTry
    rw [hge]
  have hne : ("Missing environment variables: " ++
      String.intercalate ", " (REQUIRED_ENV_KEYS.filter (envFalsy env))) ≠ "" :=
    append_ne_empty_of_left _ _ (by decide)
  unfold fetchHandler
  rw [htry]
  refine ⟨?_, rfl⟩
  simp only [errorText, if_neg hne]
  rw [← str_append_assoc]
  rfl

/-- Witness for C8: an environment with only the secret set yields the 500
listing the five other names, even though the key does not match. -/
theorem missing_env_500_witness :
    (fetchHandler [("ROUTER_SECRET", "sek")] (some "wrong") none (fun _ => none) .ok).1 =
      ⟨500, some ("Error handling request: Missing environment variables: " ++
        String.intercalate ", " (REQUIRED_ENV_KEYS.filter
          (envFalsy [("ROUTER_SECRET", "sek")])))⟩ ∧
    (fetchHandler [("ROUTER_SECRET", "sek")] (some "wrong") none (fun _ => none) .ok).2.1 = [] :=
  missing_env_500 [("ROUTER_SECRET", "sek")] (some "wrong") none (fun _ => none) .ok
    (by decide)

/-- C10: on the payload `(\x7b"data":\x7b"message":123\x7d\x7d)` (outside the four
spec shapes) `extractMessage` returns the non-string value `123`
unchanged, the quote-stripping `.replace` call throws, and the request
yields a 500 response with no Telegram POST. -/
theorem nonstring_message_500 (env : EnvMap) (key : Option String)
    (o : String → Option String) (so : PostOutcome) (renv : RequiredEnv)
    (henv : getRequiredEnv env = .ok renv) (hkey : key = some renv.ROUTER_SECRET) :
    extractMessage c10payload = Json.num 123 ∧
    (fetchHandler env key (some c10payload) o so).1.status = 500 ∧
    (fetchHandler env key (some c10payload) o so).2.1 = [] := by
  have htry : handlerTry env key (some c10payload) o =
      (.error "extractMessage(...).replace is not a function", []) := by
    unfold handlerTry
    rw [henv]
    simp [hkey]
    rfl
  refine ⟨rfl, ?_, ?_⟩ <;> (unfold fetchHandler; rw [htry])

/-- Witness for C10 at the concrete witness environment. -/
theorem nonstring_message_500_witness :
    extractMessage c10payload = Json.num 123 ∧
    (fetchHandler envW (some "sek") (some c10payload) (fun _ => none) .ok).1.status = 500 ∧
    (fetchHandler envW (some "sek") (some c10payload) (fun _ => none) .ok).2.1 = [] :=
  nonstring_message_500 envW (some "sek") (fun _ => none) .ok renvW rfl rfl

/-- C9: every dispatched Telegram POST carries exactly the extracted,
quote-stripped message truncated to 4000 characters — no header, labeled
fields or markup escaping — and the dispatched POSTs are a function of
the extracted message alone (the extracted site name is never an input
to the dispatch path), so two payloads with equal extracted message
produce identical dispatched POSTs. -/
theorem dispatched_text_exact :
    (∀ (env : EnvMap) key body o so m p,
      extractedMessage (body.getD (Json.obj [])) = .ok m →
      p ∈ (fetchHandler env key body o so).2.1 →
      p.text = String.mk (m.toList.take 4000)) ∧
    (∀ (env : EnvMap) key body1 body2 o so,
      extractedMessage (body1.getD (Json.obj [])) = extractedMessage (body2.getD (Json.obj [])) →
      (fetchHandler env key body1 o so).2.1 = (fetchHandler env key body2 o so).2.1) := by
  constructor
  · intro env key body o so m p hm hp
    rw [fetchHandler_posts] at hp
    obtain ⟨m2, hm2, ht⟩ := handlerTry_text env key body o p hp
    rw [hm] at hm2
    cases hm2
    exact ht
  · intro env key body1 body2 o so h
    rw [fetchHandler_posts, fetchHandler_posts]
    unfold handlerTry
    rcases hge : getRequiredEnv env with msg | renv
    · rfl
    · by_cases hk : key ≠ some renv.ROUTER_SECRET
      · simp [hk]
      · simp only [hk, if_false]
        rw [h]

/-- Witness for C9: the concrete routed request dispatches exactly the
extracted message (truncated). -/
theorem dispatched_text_exact_witness :
    (⟨"https://api.telegram.org/bottok/sendMessage", "near1",
      "X Site (https://1click.chaindefuser.com/x) is down", true⟩ : TelegramPost).text =
      String.mk (("X Site (https://1click.chaindefuser.com/x) is down").toList.take 4000) :=
  dispatched_text_exact.1 envW (some "sek") (some bodyW) (fun _ => none) .ok
    "X Site (https://1click.chaindefuser.com/x) is down" _ rfl (by decide)

/-- Counterexample to C3 as stated: the payload
`(\x7b"data":\x7b"message":""\x7d,"message":"hi"\x7d)` has a nested `data.message`
string field (the empty string), so the claimed precedence yields `""`;
the code's truthiness check skips the falsy empty string and yields
`"hi"` instead. -/
theorem extract_precedence_counterexample :
    jsOptField (jsField c3payload "data") "message" = some (Json.str "") ∧
    specExtractMessage c3payload = "" ∧
    extractedMessage c3payload = .ok "hi" ∧
    ("hi" : String) ≠ "" :=
  ⟨rfl, rfl, rfl, by decide⟩

/-- C3 (amended): message extraction follows the precedence with
truthiness, not string-ness: a string payload is used as-is; else a
truthy `data.message` field is returned unchanged; else a truthy
top-level `message` field; else the JSON serialization of the whole
payload; and the quote stripping of the final string result removes at
most one leading and one trailing quote character (`stripOuterQuotes`). -/
theorem extractMessage_truthy_precedence :
    (∀ s, extractedMessage (Json.str s) = .ok (stripOuterQuotes s)) ∧
    (∀ p v, jsOptField (jsField p "data") "message" = some v → truthy v = true →
      extractMessage p = v) ∧
    (∀ p w, isObjLike p = true →
      (∀ v, jsOptField (jsField p "data") "message" = some v → truthy v = false) →
      jsField p "message" = some w → truthy w = true → extractMessage p = w) ∧
    (∀ p, isObjLike p = true →
      (∀ v, jsOptField (jsField p "data") "message" = some v → truthy v = false) →
      (∀ w, jsField p "message" = some w → truthy w = false) →
      extractMessage p = .str (jsonStringify p)) ∧
    (∀ p, isObjLike p = false → (∀ s, p ≠ Json.str s) →
      extractMessage p = .str (jsonStringify p)) ∧
    (∀ p s, extractMessage p = .str s → extractedMessage p = .ok (stripOuterQuotes s)) :=
  ⟨fun _ => rfl, extractMessage_data_truthy, extractMessage_msg_truthy,
   extractMessage_fallback, extractMessage_prim, extractedMessage_of_str⟩

/-- Witness for the amended C3 at a concrete truthy `data.message`. -/
theorem extractMessage_truthy_precedence_witness :
    extractMessage (Json.obj [("data", Json.obj [("message", Json.str "hi")])]) =
      Json.str "hi" :=
  extractMessage_truthy_precedence.2.1 _ (Json.str "hi") rfl rfl

theorem isPrefixB_iff (pat l : List Char) : isPrefixB pat l = true ↔ pat <+: l := by
  induction pat generalizing l with
  | nil => simp [isPrefixB]
  | cons a as ih =>
    cases l with
    | nil => simp [isPrefixB]
    | cons b bs => simp [isPrefixB, List.cons_prefix_cons, ih]

theorem isSubstrB_iff (pat hay : List Char) : isSubstrB pat hay = true ↔ pat <:+: hay := by
  induction hay with
  | nil => cases pat <;> simp [isSubstrB, isPrefixB]
  | cons c t ih => simp [isSubstrB, List.infix_cons_iff, isPrefixB_iff, ih]

theorem strIncludes_iff (s pat : String) :
    strIncludes s pat = true ↔ pat.toList <:+: s.toList :=
  isSubstrB_iff pat.toList s.toList

theorem find?_of_first {α : Type} (p : α → Bool) (l : List α) :
    ∀ (i : Nat) (hi : i < l.length),
      (∀ j (hj : j < i), p (l.get ⟨j, Nat.lt_trans hj hi⟩) = false) →
      p (l.get ⟨i, hi⟩) = true → l.find? p = some (l.get ⟨i, hi⟩) := by
  induction l with
  | nil => intro i hi; simp at hi
  | cons a l ih =>
    intro i hi hbefore hp
    cases i with
    | zero =>
      have hpa : p a = true := hp
      rw [List.find?_cons_of_pos _ hpa]
      rfl
    | succ i =>
      have ha : p a = false := hbefore 0 (Nat.succ_pos i)
      rw [List.find?_cons_of_neg _ (by simp [ha])]
      exact ih i (Nat.lt_of_succ_lt_succ hi)
        (fun j hj => hbefore (j + 1) (Nat.succ_lt_succ hj)) hp

theorem routeAndSend_204 (renv : RequiredEnv) (m : String) (o : String → Option String)
    (h : chatIdsFalsy (getTelegramChatId (extractUrl m) renv) = true) :
    routeAndSend renv m o = (.ok ⟨204, none⟩, []) := by
  unfold routeAndSend
  simp [h]

theorem handlerTry_ok (env : EnvMap) (renv : RequiredEnv) (key : Option String)
    (body : Option Json) (o : String → Option String) (m : String)
    (henv : getRequiredEnv env = .ok renv) (hkey : key = some renv.ROUTER_SECRET)
    (hm : extractedMessage (body.getD (Json.obj [])) = .ok m) :
    handlerTry env key body o = routeAndSend renv m o := by
  unfold handlerTry
  rw [henv]
  simp [hkey, hm]

/-- C2: route lookup matches the extracted URL by substring containment
against the configured patterns in insertion order — `none` when the url
is absent, `none` when no pattern is contained in the url, and the first
matching entry's destination(s) otherwise — and when the extracted URL is
absent or matches no pattern the handler responds 204 with zero Telegram
POSTs. -/
theorem route_lookup_first_match :
    (∀ renv, getTelegramChatId none renv = none) ∧
    (∀ renv u, u ≠ "" →
      (∀ e ∈ URL_PATTERN_TO_ENV_KEY, ¬ (e.1.toList <:+: u.toList)) →
      getTelegramChatId (some u) renv = none) ∧
    (∀ renv u i (hi : i < URL_PATTERN_TO_ENV_KEY.length), u ≠ "" →
      ((URL_PATTERN_TO_ENV_KEY.get ⟨i, hi⟩).1.toList <:+: u.toList) →
      (∀ j (hj : j < i),
        ¬ ((URL_PATTERN_TO_ENV_KEY.get ⟨j, Nat.lt_trans hj hi⟩).1.toList <:+: u.toList)) →
      getTelegramChatId (some u) renv =
        some (resolveRef renv (URL_PATTERN_TO_ENV_KEY.get ⟨i, hi⟩).2)) ∧
    (∀ (env : EnvMap) renv key body o so m,
      getRequiredEnv env = .ok renv → key = some renv.ROUTER_SECRET →
      extractedMessage (body.getD (Json.obj [])) = .ok m →
      (∀ v, extractUrl m = some v →
        ∀ e ∈ URL_PATTERN_TO_ENV_KEY, ¬ (e.1.toList <:+: v.toList)) →
      (fetchHandler env key body o so).1 = ⟨204, none⟩ ∧
      (fetchHandler env key body o so).2.1 = []) := by
  refine ⟨fun renv => rfl, ?_, ?_, ?_⟩
  · intro renv u hu hnone
    simp only [getTelegramChatId]
    rw [if_neg hu]
    have hfind : List.find? (fun e => strIncludes u e.1) URL_PATTERN_TO_ENV_KEY = none :=
      List.find?_eq_none.mpr (fun e he h => hnone e he ((strIncludes_iff u e.1).mp h))
    rw [hfind]
  · intro renv u i hi hu hmatch hfirst
    simp only [getTelegramChatId]
    rw [if_neg hu]
    have hfind : List.find? (fun e => strIncludes u e.1) URL_PATTERN_TO_ENV_KEY =
        some (URL_PATTERN_TO_ENV_KEY.get ⟨i, hi⟩) := by
      refine find?_of_first _ URL_PATTERN_TO_ENV_KEY i hi ?_ ?_
      · intro j hj
        have h := hfirst j hj
        have : ¬ (strIncludes u (URL_PATTERN_TO_ENV_KEY.get ⟨j, Nat.lt_trans hj hi⟩).1 = true) :=
          fun hb => h ((strIncludes_iff _ _).mp hb)
        simpa using this
      · exact (strIncludes_iff _ _).mpr hmatch
    rw [hfind]
    rcases hE : URL_PATTERN_TO_ENV_KEY.get ⟨i, hi⟩ with ⟨pat, ref⟩
    cases ref <;> rfl
  · intro env renv key body o so m henv hkey hm hnr
    have hurlnone : getTelegramChatId (extractUrl m) renv = none := by
      rcases hu : extractUrl m with _ | v
      · rfl
      · simp only [getTelegramChatId]
        by_cases hv : v = ""
        · rw [if_pos hv]
        · rw [if_neg hv]
          have hfind : List.find? (fun e => strIncludes v e.1) URL_PATTERN_TO_ENV_KEY = none :=
            List.find?_eq_none.mpr
              (fun e he h => hnr v hu e he ((strIncludes_iff v e.1).mp h))
          rw [hfind]
    have htry : handlerTry env key body o = (.ok ⟨204, none⟩, []) :=
      (handlerTry_ok env renv key body o m henv hkey hm).trans
        (routeAndSend_204 renv m o (by rw [hurlnone]; rfl))
    unfold fetchHandler
    rw [htry]
    exact ⟨rfl, rfl⟩

/-- Witness for C2: the Near pattern is the first match for a concrete
Near URL, and a message whose URL matches no pattern yields 204 with no
POSTs. -/
theorem route_lookup_first_match_witness :
    getTelegramChatId (some "https://1click.chaindefuser.com/x") renvW =
      some (resolveRef renvW (URL_PATTERN_TO_ENV_KEY.get ⟨0, by decide⟩).2) ∧
    (fetchHandler envW (some "sek")
        (some (Json.str "plain (https://unknown.example.com/x) down"))
        (fun _ => none) .ok).1 = ⟨204, none⟩ ∧
    (fetchHandler envW (some "sek")
        (some (Json.str "plain (https://unknown.example.com/x) down"))
        (fun _ => none) .ok).2.1 = [] := by
  refine ⟨?_, ?_⟩
  · exact route_lookup_first_match.2.2.1 renvW "https://1click.chaindefuser.com/x" 0
      (by decide) (by decide)
      ((strIncludes_iff "https://1click.chaindefuser.com/x" "1click.chaindefuser.com").mp
        (by decide))
      (fun j hj => absurd hj (Nat.not_lt_zero j))
  · refine route_lookup_first_match.2.2.2 envW renvW (some "sek")
      (some (Json.str "plain (https://unknown.example.com/x) down"))
      (fun _ => none) .ok "plain (https://unknown.example.com/x) down" rfl rfl rfl ?_
    intro v hv e he hinf
    have hv' : v = "https://unknown.example.com/x" :=
      (Option.some.inj ((show extractUrl "plain (https://unknown.example.com/x) down" =
        some "https://unknown.example.com/x" from rfl).symm.trans hv)).symm
    subst hv'
    have hb : strIncludes "https://unknown.example.com/x" e.1 = true :=
      (strIncludes_iff _ _).mpr hinf
    simp only [URL_PATTERN_TO_ENV_KEY, List.mem_cons, List.not_mem_nil, or_false] at he
    rcases he with he | he <;> subst he <;> exact absurd hb (by decide)

theorem dropWhile_head_false {α : Type} (p : α → Bool) (l : List α) (a : α) (t : List α)
    (h : l.dropWhile p = a :: t) : p a = false := by
  induction l with
  | nil => simp at h
  | cons c l ih =>
    rw [List.dropWhile_cons] at h
    by_cases hc : p c = true
    · rw [if_pos hc] at h
      exact ih h
    · rw [if_neg hc] at h
      cases h
      simpa using hc

theorem span_paren (rest body : List Char) (hmem : ∀ c ∈ body, c ≠ ')') :
    (body ++ ')' :: rest).takeWhile (fun c => c != ')') = body ∧
    (body ++ ')' :: rest).dropWhile (fun c => c != ')') = ')' :: rest := by
  induction body with
  | nil =>
    constructor
    · simp [List.takeWhile_cons]
    · simp [List.dropWhile_cons]
  | cons a body ih =>
    have ha : a ≠ ')' := hmem a (List.mem_cons_self a body)
    have ihs := ih (fun c hc => hmem c (List.mem_cons_of_mem a hc))
    constructor
    · rw [List.cons_append, List.takeWhile_cons, if_pos (by simpa using ha), ihs.1]
    · rw [List.cons_append, List.dropWhile_cons, if_pos (by simpa using ha)]
      exact ihs.2

theorem protoSplit_some_iff (cs p r : List Char) :
    protoSplit cs = some (p, r) ↔
      ((p = httpsChars ∧ cs = httpsChars ++ r) ∨ (p = httpChars ∧ cs = httpChars ++ r)) := by
  constructor
  · intro h
    unfold protoSplit at h
    split_ifs at h with h1 h2
    · cases h
      exact Or.inl ⟨rfl, by rw [← h1]; exact (List.take_append_drop 8 cs).symm⟩
    · cases h
      exact Or.inr ⟨rfl, by rw [← h2]; exact (List.take_append_drop 7 cs).symm⟩
  · intro h
    rcases h with ⟨hp, hcs⟩ | ⟨hp, hcs⟩ <;> subst hp <;> subst hcs <;> unfold protoSplit
    · rw [if_pos (List.take_left' (show httpsChars.length = 8 from rfl)),
        List.drop_left' (show httpsChars.length = 8 from rfl)]
    · have hne : (httpChars ++ r).take 8 ≠ httpsChars := by
        have hred : (httpChars ++ r).take 8 =
            'h' :: 't' :: 't' :: 'p' :: ':' :: '/' :: '/' :: r.take 1 := rfl
        rw [hred]
        intro hcontra
        rw [httpsChars] at hcontra
        simp at hcontra
      rw [if_neg hne, if_pos (List.take_left' (show httpChars.length = 7 from rfl)),
        List.drop_left' (show httpChars.length = 7 from rfl)]

theorem matchAt_cons (c : Char) (rest : List Char) :
    matchAt (c :: rest) =
      (if c = '(' then
        (match protoSplit rest with
        | some (proto, rest2) =>
          if rest2.takeWhile (fun x => x != ')') = [] then none
          else if rest2.dropWhile (fun x => x != ')') = [] then none
          else some (proto ++ rest2.takeWhile (fun x => x != ')'))
        | none => none)
      else none) := rfl

theorem matchAt_some_iff (cs u : List Char) : matchAt cs = some u ↔ UrlAt cs u := by
  constructor
  · intro h
    cases cs with
    | nil => simp [matchAt] at h
    | cons c rest =>
      rw [matchAt_cons] at h
      by_cases hc : c = '('
      · rw [if_pos hc] at h
        rcases hp : protoSplit rest with _ | ⟨proto, rest2⟩ <;> rw [hp] at h
        · cases h
        · dsimp only at h
          obtain hps := (protoSplit_some_iff rest proto rest2).mp hp
          have hproto : proto = httpsChars ∨ proto = httpChars :=
            hps.elim (fun x => Or.inl x.1) (fun x => Or.inr x.1)
          have hrest : rest = proto ++ rest2 :=
            hps.elim (fun x => by rw [x.2, x.1]) (fun x => by rw [x.2, x.1])
          split_ifs at h with h1 h2
          have hu := Option.some.inj h
          have hsplit := List.takeWhile_append_dropWhile (p := fun c => c != ')') (l := rest2)
          rcases hd : rest2.dropWhile (fun c => c != ')') with _ | ⟨a, t⟩
          · exact absurd hd h2
          · have ha : (a != ')') = false :=
              dropWhile_head_false (fun c => c != ')') rest2 a t hd
            have ha' : a = ')' := by simpa using ha
            subst ha'
            refine ⟨proto, rest2.takeWhile (fun c => c != ')'), t, hproto, h1, ?_, ?_, hu.symm⟩
            · intro x hx
              have hmem := List.mem_takeWhile_imp hx
              simpa using hmem
            · rw [hc, hrest]
              conv_lhs => rw [← hsplit, hd]
      · rw [if_neg hc] at h
        cases h
  · rintro ⟨proto, body, rest, hproto, hbody, hmem, hcs, hu⟩
    subst hcs
    subst hu
    rw [matchAt_cons, if_pos rfl]
    have hps : protoSplit (proto ++ (body ++ ')' :: rest)) = some (proto, body ++ ')' :: rest) :=
      (protoSplit_some_iff _ _ _).mpr
        (hproto.elim (fun h => Or.inl ⟨h, by rw [h]⟩) (fun h => Or.inr ⟨h, by rw [h]⟩))
    rw [hps]
    dsimp only
    obtain ⟨ht, hd⟩ := span_paren rest body hmem
    rw [ht, hd]
    simp [hbody]

theorem UrlAt_ne_nil {cs u : List Char} (h : UrlAt cs u) : u ≠ [] := by
  obtain ⟨proto, body, rest, hproto, hbody, _, _, hu⟩ := h
  subst hu
  rcases hproto with h | h <;> subst h <;> simp [httpsChars, httpChars]

theorem extractUrlAux_some_iff (cs : List Char) : ∀ u,
    extractUrlAux cs = some u ↔
      ∃ i, matchAt (cs.drop i) = some u ∧ ∀ j, j < i → matchAt (cs.drop j) = none := by
  induction cs with
  | nil =>
    intro u
    constructor
    · intro h
      simp [extractUrlAux] at h
    · rintro ⟨i, hi, _⟩
      rw [List.drop_nil] at hi
      simp [matchAt] at hi
  | cons c cs ih =>
    intro u
    constructor
    · intro h
      unfold extractUrlAux at h
      rcases hm : matchAt (c :: cs) with _ | u0 <;> rw [hm] at h
      · obtain ⟨i, hi, hj⟩ := (ih u).mp h
        refine ⟨i + 1, hi, ?_⟩
        intro j hj1
        cases j with
        | zero => exact hm
        | succ j => exact hj j (Nat.lt_of_succ_lt_succ hj1)
      · cases h
        exact ⟨0, hm, fun j hj => absurd hj (Nat.not_lt_zero j)⟩
    · rintro ⟨i, hi, hj⟩
      unfold extractUrlAux
      cases i with
      | zero =>
        rw [List.drop_zero] at hi
        rw [hi]
      | succ i =>
        have h0 : matchAt (c :: cs) = none := by
          have := hj 0 (Nat.succ_pos i)
          rwa [List.drop_zero] at this
        rw [h0]
        exact (ih u).mpr ⟨i, hi, fun j hjj => hj (j + 1) (Nat.succ_lt_succ hjj)⟩

theorem extractUrlAux_none_iff (cs : List Char) :
    extractUrlAux cs = none ↔ ∀ i, matchAt (cs.drop i) = none := by
  induction cs with
  | nil =>
    constructor
    · intro _ i
      rw [List.drop_nil]
      rfl
    · intro _
      rfl
  | cons c cs ih =>
    constructor
    · intro h i
      unfold extractUrlAux at h
      rcases hm : matchAt (c :: cs) with _ | u0 <;> rw [hm] at h
      · cases i with
        | zero => rwa [List.drop_zero]
        | succ i => exact (ih.mp h) i
      · cases h
    · intro hall
      unfold extractUrlAux
      have h0 : matchAt (c :: cs) = none := by
        have := hall 0
        rwa [List.drop_zero] at this
      rw [h0]
      exact ih.mpr (fun i => hall (i + 1))

/-- C5: `extractUrl` returns precisely the first parenthesized HTTP(S)
URL of the form `(https://...)` or `(http://...)` occurring in the
message (first match of the scan, with the greedy nonempty non-`)` body),
and `none` exactly when no position of the message matches. -/
theorem extractUrl_first_paren_url (s : String) :
    (∀ u : String, extractUrl s = some u ↔
      ∃ i, UrlAt (s.toList.drop i) u.toList ∧
        ∀ j, j < i → ∀ v, ¬ UrlAt (s.toList.drop j) v) ∧
    (extractUrl s = none ↔ ∀ i v, ¬ UrlAt (s.toList.drop i) v) := by
  constructor
  · intro u
    constructor
    · intro h
      unfold extractUrl at h
      rcases ha : extractUrlAux s.toList with _ | u0 <;> rw [ha] at h
      · cases h
      · obtain ⟨i, hi, hj⟩ := (extractUrlAux_some_iff s.toList u0).mp ha
        have hne : u0 ≠ [] := UrlAt_ne_nil ((matchAt_some_iff _ _).mp hi)
        dsimp only at h
        rw [if_neg hne] at h
        cases h
        refine ⟨i, ?_, ?_⟩
        · exact (matchAt_some_iff _ _).mp hi
        · intro j hjlt v hv
          have hmv : matchAt (s.toList.drop j) = some v := (matchAt_some_iff _ _).mpr hv
          rw [hj j hjlt] at hmv
          cases hmv
    · rintro ⟨i, hi, hj⟩
      have hm : matchAt (s.toList.drop i) = some u.toList := (matchAt_some_iff _ _).mpr hi
      have hnone : ∀ j, j < i → matchAt (s.toList.drop j) = none := by
        intro j hjlt
        rcases hmj : matchAt (s.toList.drop j) with _ | v
        · rfl
        · exact absurd ((matchAt_some_iff _ _).mp hmj) (hj j hjlt v)
      have ha : extractUrlAux s.toList = some u.toList :=
        (extractUrlAux_some_iff s.toList u.toList).mpr ⟨i, hm, hnone⟩
      unfold extractUrl
      rw [ha]
      dsimp only
      rw [if_neg (UrlAt_ne_nil hi)]
      have hms : String.mk u.toList = u := by cases u; rfl
      rw [hms]
  · constructor
    · intro h i v hv
      unfold extractUrl at h
      rcases ha : extractUrlAux s.toList with _ | u0 <;> rw [ha] at h
      · have hm : matchAt (s.toList.drop i) = some v := (matchAt_some_iff _ _).mpr hv
        rw [(extractUrlAux_none_iff s.toList).mp ha i] at hm
        cases hm
      · have hne : u0 ≠ [] := by
          obtain ⟨i0, hi0, _⟩ := (extractUrlAux_some_iff s.toList u0).mp ha
          exact UrlAt_ne_nil ((matchAt_some_iff _ _).mp hi0)
        dsimp only at h
        rw [if_neg hne] at h
        cases h
    · intro hall
      unfold extractUrl
      have ha : extractUrlAux s.toList = none := by
        refine (extractUrlAux_none_iff s.toList).mpr ?_
        intro i
        rcases hmi : matchAt (s.toList.drop i) with _ | v
        · rfl
        · exact absurd ((matchAt_some_iff _ _).mp hmi) (hall i v)
      rw [ha]

/-- Witness for C5: the concrete alert message has its URL at scan
position 7 and no earlier match. -/
theorem extractUrl_first_paren_url_witness :
    ∃ i, UrlAt (("X Site (https://1click.chaindefuser.com/x) is down").toList.drop i)
        ("https://1click.chaindefuser.com/x").toList ∧
      ∀ j, j < i → ∀ v,
        ¬ UrlAt (("X Site (https://1click.chaindefuser.com/x) is down").toList.drop j) v :=
  ((extractUrl_first_paren_url "X Site (https://1click.chaindefuser.com/x) is down").1
    "https://1click.chaindefuser.com/x").mp rfl
